import Mathlib

/-!
Shallow embedding of the Invader compression pipeline
(src/src/compress/compression.cpp) and of the weapon HUD interface
compile hooks (src/src/tag/parser/compile/hud_interface.cpp).

Machine integers are modelled as Nat with explicit truncation where the
code truncates.  Fallible C++ code (exceptions) is modelled with Except.
The external zstd codec is modelled as an abstract codec parameter; the
repository's own behaviour is what is translated.
-/

namespace Invader

/-- Exception taxonomy of the code: one constructor per C++ exception class
thrown by the compression pipeline. -/
inductive MapError where
  | invalidMap
  | mapNeedsDecompressed
  | mapNeedsCompressed
  | unsupportedMapEngine
  | maximumFileSize
  | compressionFailure
  | decompressionFailure
  | failedToOpenFile
deriving DecidableEq, Repr

/-- Decidable equality for Except results, so witnesses can be checked by
evaluation. -/
instance instDecEqExcept {e a : Type} [DecidableEq e] [DecidableEq a] :
    DecidableEq (Except e a) := fun x y =>
  match x, y with
  | .error u, .error v =>
    if h : u = v then .isTrue (by rw [h]) else .isFalse (fun hh => h (Except.error.inj hh))
  | .ok u, .ok v =>
    if h : u = v then .isTrue (by rw [h]) else .isFalse (fun hh => h (Except.ok.inj hh))
  | .error _, .ok _ => .isFalse (fun hh => Except.noConfusion hh)
  | .ok _, .error _ => .isFalse (fun hh => Except.noConfusion hh)

/-- Modelled from the spec: engine enumeration codes (the HEK::CacheFileEngine
enum is declared in a header that is not under src/).  The numeric codes are
opaque; only distinctness matters to the translated code. -/
def CACHE_FILE_XBOX : Nat := 5

/-- Engine code of the legacy demo dialect. -/
def CACHE_FILE_DEMO : Nat := 6

/-- Engine code of the retail dialect. -/
def CACHE_FILE_RETAIL : Nat := 7

/-- Engine code of the custom edition dialect. -/
def CACHE_FILE_CUSTOM_EDITION : Nat := 609

/-- Engine code of the Dark Circlet dialect. -/
def CACHE_FILE_DARK_CIRCLET : Nat := 6790

/-- Engine code of the compressed custom edition dialect. -/
def CACHE_FILE_CUSTOM_EDITION_COMPRESSED : Nat := 1101

/-- Engine code of the compressed retail dialect. -/
def CACHE_FILE_RETAIL_COMPRESSED : Nat := 1102

/-- Engine code of the compressed demo dialect. -/
def CACHE_FILE_DEMO_COMPRESSED : Nat := 1103

/-- Standard header head literal, the four bytes of "head". -/
def CACHE_FILE_HEAD : Nat := 0x68656164

/-- Standard header foot literal, the four bytes of "foot". -/
def CACHE_FILE_FOOT : Nat := 0x666F6F74

/-- Demo-shaped header head literal (a different constant than "head"). -/
def CACHE_FILE_HEAD_DEMO : Nat := 0x45686564

/-- Demo-shaped header foot literal (a different constant than "foot"). -/
def CACHE_FILE_FOOT_DEMO : Nat := 0x47666F74

/-- Modelled from the spec: the fixed, finite set of engine dialects known to
the format ("the engine enumeration is one of the known values").  It contains
the seven codes the transcoder in compression.cpp handles plus the Xbox
dialect, which is a known dialect the transcoder does not support. -/
def knownEngines : List Nat :=
  [CACHE_FILE_XBOX, CACHE_FILE_DEMO, CACHE_FILE_RETAIL, CACHE_FILE_CUSTOM_EDITION,
   CACHE_FILE_DARK_CIRCLET, CACHE_FILE_CUSTOM_EDITION_COMPRESSED,
   CACHE_FILE_RETAIL_COMPRESSED, CACHE_FILE_DEMO_COMPRESSED]

/-- Modelled from the spec: the fixed cache-file header (HEK::CacheFileHeader
is declared in a header not under src/): magic head/foot literals, target
engine enumeration, declared decompressed total size, and the remaining
fields (name, build, checksum, ...) kept as an opaque list of bytes that the
transcoder copies untouched. -/
structure CacheFileHeader where
  head_literal : Nat
  engine : Nat
  decompressed_file_size : Nat
  rest : List Nat
  foot_literal : Nat
deriving DecidableEq, Repr

/-- Modelled from the spec: CacheFileHeader::valid() holds iff both literals
match the expected constants and the engine enumeration is one of the known
values. -/
def CacheFileHeader.valid (h : CacheFileHeader) : Bool :=
  h.head_literal == CACHE_FILE_HEAD && h.foot_literal == CACHE_FILE_FOOT &&
    knownEngines.contains h.engine

/-- Byte size of the standard cache file header, sizeof(HEK::CacheFileHeader).
The concrete value is opaque to the translated code. -/
def HEADER_SIZE : Nat := 2048

/-- UINT32_MAX. -/
def UINT32_MAX : Nat := 4294967295

/-- Shape in which a header is written to the output: the standard
CacheFileHeader layout or the alternate demo CacheFileDemoHeader layout
(same logical fields, different literal positions and constants). -/
inductive HeaderShape where
  | standard
  | demo
deriving DecidableEq, Repr

/-- Tail of compress_header (compression.cpp lines 41-51): copy the input
header, install the new engine code and the standard head/foot literals, and
store the declared decompressed size, failing when it exceeds UINT32_MAX.
The output is always written in the standard header shape. -/
def finishCompress (h : CacheFileHeader) (decompressed_size : Nat) (newEngine : Nat) :
    Except MapError CacheFileHeader :=
  if decompressed_size > UINT32_MAX then .error .maximumFileSize
  else .ok { h with engine := newEngine,
                    head_literal := CACHE_FILE_HEAD,
                    foot_literal := CACHE_FILE_FOOT,
                    decompressed_file_size := decompressed_size }

/-- compress_header (compression.cpp lines 10-51): validate the header, map
the engine enumeration to its compressed counterpart, and write the
transcoded header. -/
def compress_header (h : CacheFileHeader) (decompressed_size : Nat) :
    Except MapError CacheFileHeader :=
  if h.valid = false then .error .invalidMap
  else if h.engine = CACHE_FILE_CUSTOM_EDITION then
    finishCompress h decompressed_size CACHE_FILE_CUSTOM_EDITION_COMPRESSED
  else if h.engine = CACHE_FILE_RETAIL then
    finishCompress h decompressed_size CACHE_FILE_RETAIL_COMPRESSED
  else if h.engine = CACHE_FILE_DEMO then
    finishCompress h decompressed_size CACHE_FILE_DEMO_COMPRESSED
  else if h.engine = CACHE_FILE_DARK_CIRCLET then
    if h.decompressed_file_size > 0 then .error .mapNeedsDecompressed
    else finishCompress h decompressed_size h.engine
  else if h.engine = CACHE_FILE_CUSTOM_EDITION_COMPRESSED ∨
          h.engine = CACHE_FILE_RETAIL_COMPRESSED ∨
          h.engine = CACHE_FILE_DEMO_COMPRESSED then .error .mapNeedsDecompressed
  else .error .unsupportedMapEngine

/-- Tail of decompress_header (compression.cpp lines 89-107): validate the
declared decompressed size and the self-check literals, zero the size field,
install the new engine, and write either the demo-shaped header with the demo
literals (when the new engine is the demo dialect) or the standard header. -/
def finishDecompress (h : CacheFileHeader) (newEngine : Nat) :
    Except MapError (HeaderShape × CacheFileHeader) :=
  if h.decompressed_file_size < HEADER_SIZE ∨ h.valid = false then .error .invalidMap
  else
    let hc := { h with decompressed_file_size := 0, engine := newEngine }
    if newEngine = CACHE_FILE_DEMO then
      .ok (HeaderShape.demo,
        { hc with head_literal := CACHE_FILE_HEAD_DEMO, foot_literal := CACHE_FILE_FOOT_DEMO })
    else .ok (HeaderShape.standard, hc)

/-- decompress_header (compression.cpp lines 53-107).  `h` is the input bytes
read as a standard CacheFileHeader; `dv` is the same bytes reinterpreted
through CacheFileDemoHeader and converted back (used by the fallback check on
line 81).  The two views are distinct reinterpretations of the same raw
bytes, so the model keeps them as independent parameters. -/
def decompress_header (h dv : CacheFileHeader) :
    Except MapError (HeaderShape × CacheFileHeader) :=
  if h.engine = CACHE_FILE_RETAIL ∨ h.engine = CACHE_FILE_CUSTOM_EDITION ∨
     h.engine = CACHE_FILE_DEMO then .error .mapNeedsCompressed
  else if h.engine = CACHE_FILE_DARK_CIRCLET then
    if h.decompressed_file_size = 0 then .error .mapNeedsCompressed
    else finishDecompress h h.engine
  else if h.engine = CACHE_FILE_CUSTOM_EDITION_COMPRESSED then
    finishDecompress h CACHE_FILE_CUSTOM_EDITION
  else if h.engine = CACHE_FILE_RETAIL_COMPRESSED then
    finishDecompress h CACHE_FILE_RETAIL
  else if h.engine = CACHE_FILE_DEMO_COMPRESSED then
    finishDecompress h CACHE_FILE_DEMO
  else if dv.engine = CACHE_FILE_DEMO then .error .mapNeedsCompressed
  else .error .unsupportedMapEngine

/-- Abstract model of the external zstd whole-buffer codec: compression takes
a level and the body bytes, decompression takes the compressed bytes; none
models a codec-level error (ZSTD_isError). -/
structure Codec where
  compress : Nat → List Nat → Option (List Nat)
  decompress : List Nat → Option (List Nat)

/-- compress_map_data (compression.cpp lines 111-126 and the vector overload
on lines 151-162): transcode the header (the declared decompressed size is
the whole input size, header included), then compress the body after the
header with the requested level.  Loading the buffer through
Map::map_with_pointer (code not under src/) is modelled from the spec as
reading the leading standard-shaped header. -/
def compress_map_data (codec : Codec) (level : Nat) (h : CacheFileHeader)
    (body : List Nat) : Except MapError (CacheFileHeader × List Nat) :=
  match compress_header h (HEADER_SIZE + body.length) with
  | .error e => .error e
  | .ok h2 =>
    match codec.compress level body with
    | none => .error .compressionFailure
    | some c => .ok (h2, c)

/-- decompress_map_data (compression.cpp lines 128-149 and the vector
overload on lines 164-177): check the header (with the demo fallback of lines
131-137), transcode it, decompress the body, and fail when the codec errors
or when the decompressed body length plus the header size disagrees with the
header's declared decompressed size — both through the same
DecompressionFailureException (line 143).  `dv` is the demo-shaped
reinterpretation of the leading bytes, as in decompress_header. -/
def decompress_map_data (codec : Codec) (h dv : CacheFileHeader)
    (body : List Nat) : Except MapError (HeaderShape × CacheFileHeader × List Nat) :=
  if h.valid = false then
    if dv.valid = true ∧ dv.engine = CACHE_FILE_DEMO then .error .mapNeedsCompressed
    else .error .invalidMap
  else
    match decompress_header h dv with
    | .error e => .error e
    | .ok hd =>
      match codec.decompress body with
      | none => .error .decompressionFailure
      | some d =>
        if d.length + HEADER_SIZE ≠ h.decompressed_file_size then .error .decompressionFailure
        else .ok (hd.1, hd.2, d)

/-- Abstract model of the external zstd streaming decompressor
(ZSTD_createDStream / ZSTD_initDStream / ZSTD_decompressStream) over an
abstract stream state σ.  initSize is the value returned by ZSTD_initDStream,
which the code uses as the size of the first read of every outer-loop
iteration.  step takes the current state and the input chunk just read and
returns none on a codec error (ZSTD_isError) or (new state, output bytes
flushed, q), where q > 0 means the decoder needs exactly q further input
bytes and q = 0 means the current frame is complete. -/
structure DStream (σ : Type) where
  initSize : Nat
  step : σ → List Nat → Option (σ × List Nat × Nat)

/-- The read/decompress/write loop of decompress_map_file (compression.cpp
lines 244-284): feed the chunk just read to the decompressor; on a codec
error fail; otherwise write the produced output, and if the decoder asks for
q > 0 more bytes read exactly q more (failing with the same
DecompressionFailureException when fewer than q bytes remain, which is how a
truncated input file surfaces); on q = 0 re-enter the outer loop, which stops
when the whole input file has been read and otherwise reads the next
initSize-byte chunk (a zero-byte fread also fails, exactly as
fread(_, 0, 1, f) != 1 does). -/
def streamBody {σ : Type} (ds : DStream σ) (st : σ) (chunk remaining written : List Nat) :
    Except MapError (List Nat) :=
  match ds.step st chunk with
  | none => .error .decompressionFailure
  | some (st2, out, q) =>
    if 0 < q then
      if _h : q ≤ remaining.length then
        streamBody ds st2 (remaining.take q) (remaining.drop q) (written ++ out)
      else .error .decompressionFailure
    else if remaining.length = 0 then .ok (written ++ out)
    else if _h2 : 0 < ds.initSize ∧ ds.initSize ≤ remaining.length then
      streamBody ds st2 (remaining.take ds.initSize) (remaining.drop ds.initSize) (written ++ out)
    else .error .decompressionFailure
termination_by remaining.length
decreasing_by
  · simp only [List.length_drop]
    omega
  · simp only [List.length_drop]
    omega

/-- decompress_map_file (compression.cpp lines 179-290): read and transcode
the header, write it, then stream-decompress the body.  The input file is
modelled as its leading header (standard and demo-shaped views) plus the body
bytes after the header; file-open and disk-write failures are out of scope
of this model, so the result is the transcoded header plus the body bytes
written.  A fresh decompressor state st0 is created before the loop; when no
body bytes follow the header the outer while loop never runs. -/
def decompress_map_file {σ : Type} (ds : DStream σ) (st0 : σ) (h dv : CacheFileHeader)
    (body : List Nat) : Except MapError (HeaderShape × CacheFileHeader × List Nat) :=
  match decompress_header h dv with
  | .error e => .error e
  | .ok hd =>
    if body.length = 0 then .ok (hd.1, hd.2, [])
    else if 0 < ds.initSize ∧ ds.initSize ≤ body.length then
      match streamBody ds st0 (body.take ds.initSize) (body.drop ds.initSize) [] with
      | .error e => .error e
      | .ok w => .ok (hd.1, hd.2, w)
    else .error .decompressionFailure

/-- ERROR_TYPE_WARNING / ERROR_TYPE_ERROR severities used by
REPORT_ERROR_PRINTF in the HUD interface hooks. -/
inductive ErrorType where
  | warning
  | error
deriving DecidableEq, Repr

/-- One structured diagnostic kind per REPORT_ERROR_PRINTF site of
hud_interface.cpp, carrying the numeric data formatted into the message. -/
inductive HudDiag where
  | zoomWithoutZoomCrosshairs (zooms : Nat)
  | crosshairSequenceOutOfBounds (seq overlay cross bound : Nat)
  | crosshairSequenceZeroBitmaps (seq overlay cross : Nat)
  | crosshairSequenceZeroSprites (seq overlay cross : Nat)
  | meterSequenceOutOfBounds (seq meter bound : Nat)
  | meterSequenceZeroSprites (seq meter : Nat)
  | staticSequenceOutOfBounds (seq elem bound : Nat)
  | staticSequenceZeroSpritesBitmaps (seq elem : Nat)
  | overlayElementSequenceOutOfBounds (seq overlay elem bound : Nat)
  | overlayElementSequenceZeroBitmaps (seq overlay elem : Nat)
deriving DecidableEq, Repr

/-- A diagnostic recorded in the workload's error list. -/
structure Diag where
  severity : ErrorType
  tag_index : Nat
  kind : HudDiag
deriving DecidableEq, Repr

/-- One sequence of a bitmap tag: its bitmap count and its sprite count
(bitmap_group_sequence entries read by get_sequence_data). -/
structure BitmapGroupSequence where
  bitmap_count : Nat
  sprite_count : Nat
deriving DecidableEq, Repr

/-- Modelled from the spec: the build workload as seen by the HUD hooks (the
BuildWorkload class is not under src/): the target engine, the record store
lookup giving each bitmap tag's sequence list (workload.tags / workload.structs
resolved as in get_sequence_data), and the accumulated diagnostics, appended
to by REPORT_ERROR_PRINTF. -/
structure BuildWorkload where
  engine_target : Nat
  bitmap_sequences : Nat → List BitmapGroupSequence
  errors : List Diag

/-- The null sentinel index NULL_INDEX (0xFFFF). -/
def NULL_INDEX : Nat := 65535

/-- sizeof(WeaponHUDInterfaceCrosshair::struct_little), the divisor the hooks
apply to struct_offset in every message (the meter, static element and
overlay element messages reuse the crosshair struct size, exactly as in the
source).  The concrete value is opaque to the translated code. -/
def CROSSHAIR_STRUCT_SIZE : Nat := 76

/-- get_sequence_data (hud_interface.cpp lines 35-50): a null tag id yields
zero sequences; otherwise the referenced bitmap record's sequence list is
looked up in the workload (sequence_count is its length).  The formatted
bitmap tag path only feeds the diagnostic text and is not modelled. -/
def get_sequence_data (w : BuildWorkload) (tag_id : Option Nat) : List BitmapGroupSequence :=
  match tag_id with
  | none => []
  | some i => w.bitmap_sequences i

/-- Flags of a crosshair overlay (HEK::WeaponHUDInterfaceCrosshairOverlayFlags),
flattened into the overlay record. -/
structure WeaponHUDInterfaceCrosshairOverlay where
  sequence_index : Nat
  dont_show_when_zoomed : Bool
  show_only_when_zoomed : Bool
  not_a_sprite : Bool
deriving DecidableEq, Repr

/-- One crosshair of a weapon HUD interface: its crosshair type enum value,
its referenced crosshair bitmap tag id (none models a null TagID), and its
overlays. -/
structure WeaponHUDInterfaceCrosshair where
  crosshair_type : Nat
  crosshair_bitmap : Option Nat
  crosshair_overlays : List WeaponHUDInterfaceCrosshairOverlay
deriving DecidableEq, Repr

/-- The weapon HUD interface record's fields used by its pre-compile hook:
the aggregated crosshair-types flag field (a 32-bit mask) and the crosshairs
list. -/
structure WeaponHUDInterface where
  crosshair_types : Nat
  crosshairs : List WeaponHUDInterfaceCrosshair
deriving DecidableEq, Repr

/-- 2^32, the modulus of the uint32_t flag accumulator. -/
def U32_MOD : Nat := 4294967296

/-- The enum value of the zoom crosshair type, whose bit the pre-compile hook
tests (crosshair_types.zoom).  The concrete value is opaque; it is below 32. -/
def ZOOM_CROSSHAIR_TYPE : Nat := 1

/-- The aggregation loop of WeaponHUDInterface::pre_compile (lines 11-17):
starting from a zero-initialized uint32_t, OR in 1 << crosshair_type for
every crosshair. -/
def crosshairTypesFold (cs : List WeaponHUDInterfaceCrosshair) : Nat :=
  cs.foldl (fun acc c => acc ||| ((1 <<< c.crosshair_type) % U32_MOD)) 0

/-- The zoom-overlay count of WeaponHUDInterface::pre_compile (lines 21-28):
overlays flagged dont_show_when_zoomed or show_only_when_zoomed, over all
crosshairs. -/
def zoomOverlayCount (cs : List WeaponHUDInterfaceCrosshair) : Nat :=
  cs.foldl (fun acc c =>
    acc + (c.crosshair_overlays.filter
      (fun o => o.dont_show_when_zoomed || o.show_only_when_zoomed)).length) 0

/-- WeaponHUDInterface::pre_compile (hud_interface.cpp lines 10-33): rebuild
the aggregated crosshair_types flag field from the crosshairs list, then, for
non-Dark-Circlet targets with no zoom crosshair bit set, warn when overlays
are nevertheless set to change on zoom. -/
def WeaponHUDInterface.pre_compile (w : BuildWorkload) (tag_index : Nat)
    (rec : WeaponHUDInterface) : WeaponHUDInterface × BuildWorkload :=
  let types := crosshairTypesFold rec.crosshairs
  let rec2 := { rec with crosshair_types := types }
  if w.engine_target ≠ CACHE_FILE_DARK_CIRCLET ∧ types.testBit ZOOM_CROSSHAIR_TYPE = false then
    let zooms := zoomOverlayCount rec.crosshairs
    if zooms ≠ 0 then
      (rec2, { w with errors := w.errors ++
        [⟨.warning, tag_index, .zoomWithoutZoomCrosshairs zooms⟩] })
    else (rec2, w)
  else (rec2, w)

/-- The per-overlay validation loop of WeaponHUDInterfaceCrosshair::post_compile
(lines 61-81), accumulating the diagnostics in order; i is the index of the
first overlay of the remaining list.  An overlay with the null sentinel index
is skipped; an out-of-bounds sequence index is an error; otherwise the
referenced sequence must have bitmaps (when flagged not_a_sprite) or sprites. -/
def crosshairOverlayDiags (tag_index cross : Nat) (seqs : List BitmapGroupSequence) :
    Nat → List WeaponHUDInterfaceCrosshairOverlay → List Diag
  | _, [] => []
  | i, o :: rest =>
    (if o.sequence_index ≠ NULL_INDEX then
      if o.sequence_index ≥ seqs.length then
        [⟨.error, tag_index, .crosshairSequenceOutOfBounds o.sequence_index i cross seqs.length⟩]
      else
        let seq := seqs.getD o.sequence_index ⟨0, 0⟩
        if o.not_a_sprite then
          if seq.bitmap_count = 0 then
            [⟨.error, tag_index, .crosshairSequenceZeroBitmaps o.sequence_index i cross⟩]
          else []
        else
          if seq.sprite_count = 0 then
            [⟨.error, tag_index, .crosshairSequenceZeroSprites o.sequence_index i cross⟩]
          else []
    else []) ++ crosshairOverlayDiags tag_index cross seqs (i + 1) rest

/-- WeaponHUDInterfaceCrosshair::post_compile (hud_interface.cpp lines 52-82):
look up the crosshair bitmap's sequences and validate every overlay,
appending the diagnostics to the workload; the record itself is returned
unchanged (the hook only reads it). -/
def WeaponHUDInterfaceCrosshair.post_compile (w : BuildWorkload)
    (tag_index struct_offset : Nat) (c : WeaponHUDInterfaceCrosshair) :
    WeaponHUDInterfaceCrosshair × BuildWorkload :=
  let seqs := get_sequence_data w c.crosshair_bitmap
  (c, { w with errors := w.errors ++
    (crosshairOverlayDiags tag_index (struct_offset / CROSSHAIR_STRUCT_SIZE) seqs 0
      c.crosshair_overlays) })

/-- One meter of a weapon HUD interface: its sequence index and its meter
bitmap tag id. -/
structure WeaponHUDInterfaceMeter where
  sequence_index : Nat
  meter_bitmap : Option Nat
deriving DecidableEq, Repr

/-- WeaponHUDInterfaceMeter::post_compile (hud_interface.cpp lines 84-103):
when the sequence index is not the null sentinel, it must be within the meter
bitmap's sequence count and the referenced sequence must have sprites. -/
def WeaponHUDInterfaceMeter.post_compile (w : BuildWorkload)
    (tag_index struct_offset : Nat) (m : WeaponHUDInterfaceMeter) :
    WeaponHUDInterfaceMeter × BuildWorkload :=
  if m.sequence_index ≠ NULL_INDEX then
    let seqs := get_sequence_data w m.meter_bitmap
    let ds :=
      if m.sequence_index ≥ seqs.length then
        [⟨ErrorType.error, tag_index,
          .meterSequenceOutOfBounds m.sequence_index (struct_offset / CROSSHAIR_STRUCT_SIZE)
            seqs.length⟩]
      else if (seqs.getD m.sequence_index ⟨0, 0⟩).sprite_count = 0 then
        [⟨ErrorType.error, tag_index,
          .meterSequenceZeroSprites m.sequence_index (struct_offset / CROSSHAIR_STRUCT_SIZE)⟩]
      else []
    (m, { w with errors := w.errors ++ ds })
  else (m, w)

/-- One static element of a weapon HUD interface: its sequence index and its
interface bitmap tag id. -/
structure WeaponHUDInterfaceStaticElement where
  sequence_index : Nat
  interface_bitmap : Option Nat
deriving DecidableEq, Repr

/-- WeaponHUDInterfaceStaticElement::post_compile (hud_interface.cpp lines
105-125): like the meter, but the referenced sequence only needs a nonzero
bitmap count or a nonzero sprite count. -/
def WeaponHUDInterfaceStaticElement.post_compile (w : BuildWorkload)
    (tag_index struct_offset : Nat) (e : WeaponHUDInterfaceStaticElement) :
    WeaponHUDInterfaceStaticElement × BuildWorkload :=
  if e.sequence_index ≠ NULL_INDEX then
    let seqs := get_sequence_data w e.interface_bitmap
    let ds :=
      if e.sequence_index ≥ seqs.length then
        [⟨ErrorType.error, tag_index,
          .staticSequenceOutOfBounds e.sequence_index (struct_offset / CROSSHAIR_STRUCT_SIZE)
            seqs.length⟩]
      else
        let seq := seqs.getD e.sequence_index ⟨0, 0⟩
        if seq.bitmap_count = 0 ∧ seq.sprite_count = 0 then
          [⟨ErrorType.error, tag_index,
            .staticSequenceZeroSpritesBitmaps e.sequence_index
              (struct_offset / CROSSHAIR_STRUCT_SIZE)⟩]
        else []
    (e, { w with errors := w.errors ++ ds })
  else (e, w)

/-- One overlay of an overlay element (HEK::WeaponHUDInterfaceOverlay). -/
structure WeaponHUDInterfaceOverlay where
  sequence_index : Nat
deriving DecidableEq, Repr

/-- The per-overlay loop of WeaponHUDInterfaceOverlayElement::post_compile
(lines 136-149). -/
def overlayElementDiags (tag_index elem : Nat) (seqs : List BitmapGroupSequence) :
    Nat → List WeaponHUDInterfaceOverlay → List Diag
  | _, [] => []
  | i, o :: rest =>
    (if o.sequence_index ≠ NULL_INDEX then
      if o.sequence_index ≥ seqs.length then
        [⟨.error, tag_index,
          .overlayElementSequenceOutOfBounds o.sequence_index i elem seqs.length⟩]
      else if (seqs.getD o.sequence_index ⟨0, 0⟩).bitmap_count = 0 then
        [⟨.error, tag_index, .overlayElementSequenceZeroBitmaps o.sequence_index i elem⟩]
      else []
    else []) ++ overlayElementDiags tag_index elem seqs (i + 1) rest

/-- The overlay element record: its overlay bitmap tag id and its overlays. -/
structure WeaponHUDInterfaceOverlayElement where
  overlay_bitmap : Option Nat
  overlays : List WeaponHUDInterfaceOverlay
deriving DecidableEq, Repr

/-- WeaponHUDInterfaceOverlayElement::post_compile (hud_interface.cpp lines
127-150). -/
def WeaponHUDInterfaceOverlayElement.post_compile (w : BuildWorkload)
    (tag_index struct_offset : Nat) (e : WeaponHUDInterfaceOverlayElement) :
    WeaponHUDInterfaceOverlayElement × BuildWorkload :=
  let seqs := get_sequence_data w e.overlay_bitmap
  (e, { w with errors := w.errors ++
    (overlayElementDiags tag_index (struct_offset / CROSSHAIR_STRUCT_SIZE) seqs 0 e.overlays) })

/-! Concrete fixtures used by witnesses and counterexamples. -/

/-- The seven engine codes the transcoder's switch handles. -/
def transcoderEngines : List Nat :=
  [CACHE_FILE_CUSTOM_EDITION, CACHE_FILE_RETAIL, CACHE_FILE_DEMO, CACHE_FILE_DARK_CIRCLET,
   CACHE_FILE_CUSTOM_EDITION_COMPRESSED, CACHE_FILE_RETAIL_COMPRESSED,
   CACHE_FILE_DEMO_COMPRESSED]

/-- A header's engine carries the compressed representation: either a
compressed engine code, or the Dark Circlet dialect with a nonzero declared
decompressed size (for Dark Circlet, compressedness is carried by that
field). -/
def carriesCompressedForm (h : CacheFileHeader) : Prop :=
  h.engine = CACHE_FILE_CUSTOM_EDITION_COMPRESSED ∨
  h.engine = CACHE_FILE_RETAIL_COMPRESSED ∨
  h.engine = CACHE_FILE_DEMO_COMPRESSED ∨
  (h.engine = CACHE_FILE_DARK_CIRCLET ∧ 0 < h.decompressed_file_size)

/-- A valid header of the compressed retail dialect. -/
def hdrRetailCompressed : CacheFileHeader :=
  ⟨CACHE_FILE_HEAD, CACHE_FILE_RETAIL_COMPRESSED, 2053, [9], CACHE_FILE_FOOT⟩

/-- A valid header of the known but unsupported Xbox dialect. -/
def hdrXbox : CacheFileHeader :=
  ⟨CACHE_FILE_HEAD, CACHE_FILE_XBOX, 0, [], CACHE_FILE_FOOT⟩

/-- A header of the retail dialect with wrong literals. -/
def hdrRetailBadLiterals : CacheFileHeader :=
  ⟨0, CACHE_FILE_RETAIL, 0, [], 0⟩

/-- A valid Dark Circlet header with a zero size field (decompressed form). -/
def hdrDark0 : CacheFileHeader :=
  ⟨CACHE_FILE_HEAD, CACHE_FILE_DARK_CIRCLET, 0, [3], CACHE_FILE_FOOT⟩

/-- A valid Dark Circlet header with a nonzero size field (compressed form). -/
def hdrDarkBig : CacheFileHeader :=
  ⟨CACHE_FILE_HEAD, CACHE_FILE_DARK_CIRCLET, 4000, [3], CACHE_FILE_FOOT⟩

/-- An arbitrary demo-shaped reinterpretation used where the demo view is
irrelevant. -/
def dvZero : CacheFileHeader := ⟨0, 0, 0, [], 0⟩

/-- A compressed-retail-engine header whose head/foot literals are wrong. -/
def hdrRCBadLiterals : CacheFileHeader :=
  ⟨0, CACHE_FILE_RETAIL_COMPRESSED, 0, [], 0⟩

/-- A well-literaled header whose engine code 999 is outside the known
enumeration. -/
def hdrUnknownEngine : CacheFileHeader :=
  ⟨CACHE_FILE_HEAD, 999, 0, [], CACHE_FILE_FOOT⟩

/-- A Dark Circlet header with a nonzero size field but wrong literals. -/
def hdrDarkBadLiterals : CacheFileHeader :=
  ⟨0, CACHE_FILE_DARK_CIRCLET, 5, [], 0⟩

/-- The header obtained by decompression-transcoding hdrRetailCompressed. -/
def hdrRetailDecompressed : CacheFileHeader :=
  ⟨CACHE_FILE_HEAD, CACHE_FILE_RETAIL, 0, [9], CACHE_FILE_FOOT⟩

/-- A valid header of the compressed demo dialect. -/
def hdrDemoCompressed : CacheFileHeader :=
  ⟨CACHE_FILE_HEAD, CACHE_FILE_DEMO_COMPRESSED, 2100, [], CACHE_FILE_FOOT⟩

/-- The demo-shaped header obtained by decompression-transcoding
hdrDemoCompressed. -/
def hdrDemoDecompressed : CacheFileHeader :=
  ⟨CACHE_FILE_HEAD_DEMO, CACHE_FILE_DEMO, 0, [], CACHE_FILE_FOOT_DEMO⟩

/-- The identity codec: a lossless codec whose compressed form is the body
itself; used to instantiate the abstract zstd parameter in witnesses. -/
def idCodec : Codec := ⟨fun _ b => some b, fun b => some b⟩

/-- A codec that always reports a codec-level error. -/
def errCodec : Codec := ⟨fun _ _ => none, fun _ => none⟩

/-- A valid compressed custom edition header declaring 2053 decompressed
bytes. -/
def hdrCEC : CacheFileHeader :=
  ⟨CACHE_FILE_HEAD, CACHE_FILE_CUSTOM_EDITION_COMPRESSED, 2053, [], CACHE_FILE_FOOT⟩

/-- A valid retail header whose declared decompressed size field is 5. -/
def hdrRetail5 : CacheFileHeader :=
  ⟨CACHE_FILE_HEAD, CACHE_FILE_RETAIL, 5, [], CACHE_FILE_FOOT⟩

/-- A valid retail header with a zero size field. -/
def hdrRetail0 : CacheFileHeader :=
  ⟨CACHE_FILE_HEAD, CACHE_FILE_RETAIL, 0, [], CACHE_FILE_FOOT⟩

/-- A valid demo-engine header in the standard shape with a zero size field. -/
def hdrDemo0 : CacheFileHeader :=
  ⟨CACHE_FILE_HEAD, CACHE_FILE_DEMO, 0, [], CACHE_FILE_FOOT⟩

/-- The buffer produced by compressing hdrRetail5 with an empty body. -/
def outRetail5 : CacheFileHeader × List Nat :=
  (⟨CACHE_FILE_HEAD, CACHE_FILE_RETAIL_COMPRESSED, HEADER_SIZE, [], CACHE_FILE_FOOT⟩, [])

/-- The buffer produced by compressing hdrDemo0 with an empty body. -/
def outDemo0 : CacheFileHeader × List Nat :=
  (⟨CACHE_FILE_HEAD, CACHE_FILE_DEMO_COMPRESSED, HEADER_SIZE, [], CACHE_FILE_FOOT⟩, [])

/-- The buffer produced by compressing hdrRetail0 with body [1, 2, 3]. -/
def outRetailW : CacheFileHeader × List Nat :=
  (⟨CACHE_FILE_HEAD, CACHE_FILE_RETAIL_COMPRESSED, 2051, [], CACHE_FILE_FOOT⟩, [1, 2, 3])

/-- A streaming decompressor that always reports needing 2 further bytes. -/
def dsNeed : DStream Nat := ⟨2, fun s chunk => some (s, chunk, 2)⟩

/-- A streaming decompressor that always reports a codec error. -/
def dsErr : DStream Nat := ⟨2, fun _ _ => none⟩

/-- The header obtained by decompression-transcoding hdrCEC. -/
def hdrCECDecompressed : CacheFileHeader :=
  ⟨CACHE_FILE_HEAD, CACHE_FILE_CUSTOM_EDITION, 0, [], CACHE_FILE_FOOT⟩

/-- A build workload with no bitmaps and no recorded diagnostics. -/
def wHud : BuildWorkload := ⟨0, fun _ => [], []⟩

/-- A weapon HUD interface record with two crosshairs of types 1 and 3. -/
def recHud : WeaponHUDInterface :=
  ⟨0, [⟨1, none, []⟩, ⟨3, none, []⟩]⟩

/-- A crosshair with one overlay whose sequence index 3 points into a null
bitmap. -/
def cHud : WeaponHUDInterfaceCrosshair := ⟨0, none, [⟨3, false, false, false⟩]⟩

/-- A meter with sequence index 2 and a null bitmap. -/
def mHud : WeaponHUDInterfaceMeter := ⟨2, none⟩

/-! Theorems. -/

/-- Claim C3 (corrected): the claim quantifies over every header, but
compress_header checks valid() before its engine switch (compression.cpp
lines 13-15), so a compressed-engine header with bad literals — and likewise
a header whose engine code is outside the known enumeration — fails with
InvalidMapException, not with the claimed errors.  Amended claim: for every
header passing the validity check, transcoding toward the compressed
representation fails with the already-transformed failure (the code's
MapNeedsDecompressedException) when the engine enumeration is already a
compressed variant, with UnsupportedMapEngineException when the engine is a
known dialect the transcoder does not handle, and carrying the requested
(compressed) representation is exactly the condition for the
already-transformed failure. -/
theorem compress_header_already_transformed (h : CacheFileHeader) (sz : Nat)
    (hv : h.valid = true) :
    ((h.engine = CACHE_FILE_CUSTOM_EDITION_COMPRESSED ∨
      h.engine = CACHE_FILE_RETAIL_COMPRESSED ∨
      h.engine = CACHE_FILE_DEMO_COMPRESSED) →
        compress_header h sz = .error .mapNeedsDecompressed) ∧
    (h.engine ∉ transcoderEngines →
        compress_header h sz = .error .unsupportedMapEngine) ∧
    (compress_header h sz = .error .mapNeedsDecompressed ↔ carriesCompressedForm h) := by
  refine ⟨?_, ?_, ?_⟩ <;>
    simp only [compress_header, finishCompress, hv, Bool.true_eq_false, if_false,
      carriesCompressedForm, transcoderEngines, List.mem_cons, List.not_mem_nil, or_false,
      not_or] <;>
    split_ifs <;>
    simp_all [CACHE_FILE_CUSTOM_EDITION, CACHE_FILE_RETAIL, CACHE_FILE_DEMO,
      CACHE_FILE_DARK_CIRCLET, CACHE_FILE_CUSTOM_EDITION_COMPRESSED,
      CACHE_FILE_RETAIL_COMPRESSED, CACHE_FILE_DEMO_COMPRESSED]
  all_goals omega

/-- Witness for C3: the compressed-retail header is rejected as already
transformed, and the Xbox header as unsupported. -/
theorem compress_header_already_transformed_witness :
    compress_header hdrRetailCompressed 0 = .error .mapNeedsDecompressed ∧
    compress_header hdrXbox 0 = .error .unsupportedMapEngine :=
  ⟨(compress_header_already_transformed hdrRetailCompressed 0 (by decide)).1 (by decide),
   (compress_header_already_transformed hdrXbox 0 (by decide)).2.1 (by decide)⟩

/-- Counterexample for C3 as stated: the validity check precedes the engine
dispatch, so this compressed-retail header with bad literals fails with
InvalidMapException rather than the claimed already-transformed failure, and
this header with the unrecognized engine code 999 also fails with
InvalidMapException rather than the claimed unsupported-engine failure. -/
theorem compress_header_already_transformed_cex :
    (hdrRCBadLiterals.engine = CACHE_FILE_RETAIL_COMPRESSED ∧
     compress_header hdrRCBadLiterals 0 = .error .invalidMap ∧
     MapError.invalidMap ≠ MapError.mapNeedsDecompressed) ∧
    (hdrUnknownEngine.engine ∉ knownEngines ∧
     compress_header hdrUnknownEngine 0 = .error .invalidMap ∧
     MapError.invalidMap ≠ MapError.unsupportedMapEngine) := by
  decide

/-- Claim C4 (confirmed): header transcoding writes the alternate demo header
shape with the demo head/foot literals exactly when the output target engine
is the legacy demo dialect; in every other case — including compressing a
demo map to its compressed counterpart — the standard shape with the standard
literals is written (compress_header's output is always written through the
standard CacheFileHeader layout). -/
theorem header_demo_shape_iff :
    (∀ h dv r, decompress_header h dv = .ok r →
      ((r.1 = HeaderShape.demo ↔ r.2.engine = CACHE_FILE_DEMO) ∧
       (r.1 = HeaderShape.demo →
         r.2.head_literal = CACHE_FILE_HEAD_DEMO ∧ r.2.foot_literal = CACHE_FILE_FOOT_DEMO) ∧
       (r.1 = HeaderShape.standard →
         r.2.head_literal = CACHE_FILE_HEAD ∧ r.2.foot_literal = CACHE_FILE_FOOT))) ∧
    (∀ h sz h2, compress_header h sz = .ok h2 →
      (h2.head_literal = CACHE_FILE_HEAD ∧ h2.foot_literal = CACHE_FILE_FOOT) ∧
      (h.engine = CACHE_FILE_DEMO → h2.engine = CACHE_FILE_DEMO_COMPRESSED)) := by
  constructor
  · intro h dv r hok
    unfold decompress_header finishDecompress at hok
    split_ifs at hok <;> injection hok with h1 <;> subst h1 <;>
      simp_all [CACHE_FILE_DEMO, CACHE_FILE_RETAIL, CACHE_FILE_CUSTOM_EDITION,
        CACHE_FILE_DARK_CIRCLET, CACHE_FILE_CUSTOM_EDITION_COMPRESSED,
        CACHE_FILE_RETAIL_COMPRESSED, CACHE_FILE_DEMO_COMPRESSED,
        CACHE_FILE_HEAD_DEMO, CACHE_FILE_FOOT_DEMO, CacheFileHeader.valid]
  · intro h sz h2 hok
    unfold compress_header finishCompress at hok
    split_ifs at hok <;> injection hok with h1 <;> subst h1 <;>
      simp_all [CACHE_FILE_DEMO, CACHE_FILE_RETAIL, CACHE_FILE_CUSTOM_EDITION,
        CACHE_FILE_DARK_CIRCLET, CACHE_FILE_CUSTOM_EDITION_COMPRESSED,
        CACHE_FILE_RETAIL_COMPRESSED, CACHE_FILE_DEMO_COMPRESSED,
        CACHE_FILE_HEAD, CACHE_FILE_FOOT]

/-- Witness for C4: decompressing the compressed retail header yields the
standard shape with the standard literals, and decompressing the compressed
demo header yields the demo shape with the demo literals. -/
theorem header_demo_shape_iff_witness :
    (((HeaderShape.standard, hdrRetailDecompressed).1 = HeaderShape.demo ↔
        (HeaderShape.standard, hdrRetailDecompressed).2.engine = CACHE_FILE_DEMO) ∧
     ((HeaderShape.demo, hdrDemoDecompressed).2.head_literal = CACHE_FILE_HEAD_DEMO ∧
      (HeaderShape.demo, hdrDemoDecompressed).2.foot_literal = CACHE_FILE_FOOT_DEMO)) :=
  ⟨(header_demo_shape_iff.1 hdrRetailCompressed dvZero
      (HeaderShape.standard, hdrRetailDecompressed) (by decide)).1,
   (header_demo_shape_iff.1 hdrDemoCompressed dvZero
      (HeaderShape.demo, hdrDemoDecompressed) (by decide)).2.1 rfl⟩

/-- Claim C5 (corrected): the universally quantified claim fails — a header
with bad literals whose engine is an uncompressed dialect is rejected by the
engine dispatch with MapNeedsCompressedException before the size/literal
validation runs, not with InvalidMapException.  Amended claim: for every
header that reaches the validation — one whose engine is a compressed variant
or Dark Circlet with a nonzero size field — a declared decompressed size
smaller than the header size or invalid self-check literals fail with
InvalidMapException and no output header is produced. -/
theorem decompress_header_validation (h dv : CacheFileHeader)
    (he : h.engine = CACHE_FILE_CUSTOM_EDITION_COMPRESSED ∨
          h.engine = CACHE_FILE_RETAIL_COMPRESSED ∨
          h.engine = CACHE_FILE_DEMO_COMPRESSED ∨
          (h.engine = CACHE_FILE_DARK_CIRCLET ∧ h.decompressed_file_size ≠ 0))
    (hbad : h.decompressed_file_size < HEADER_SIZE ∨ h.valid = false) :
    decompress_header h dv = .error .invalidMap := by
  unfold decompress_header finishDecompress
  split_ifs <;>
    simp_all [CACHE_FILE_DEMO, CACHE_FILE_RETAIL, CACHE_FILE_CUSTOM_EDITION,
      CACHE_FILE_DARK_CIRCLET, CACHE_FILE_CUSTOM_EDITION_COMPRESSED,
      CACHE_FILE_RETAIL_COMPRESSED, CACHE_FILE_DEMO_COMPRESSED]
  all_goals omega

/-- Witness for C5 (amended): a compressed retail header whose declared size
is below the header size is rejected as invalid. -/
theorem decompress_header_validation_witness :
    decompress_header
      (⟨CACHE_FILE_HEAD, CACHE_FILE_RETAIL_COMPRESSED, 17, [], CACHE_FILE_FOOT⟩ :
        CacheFileHeader) dvZero = .error .invalidMap :=
  decompress_header_validation
    (⟨CACHE_FILE_HEAD, CACHE_FILE_RETAIL_COMPRESSED, 17, [], CACHE_FILE_FOOT⟩ :
      CacheFileHeader) dvZero (by decide) (by decide)

/-- Counterexample for C5 as stated: this retail-engine header has invalid
head/foot literals, yet the decompression-direction transcoder fails with
MapNeedsCompressedException (the engine dispatch runs first), not with the
InvalidMapException the claim requires. -/
theorem decompress_header_validation_cex :
    hdrRetailBadLiterals.valid = false ∧
    decompress_header hdrRetailBadLiterals dvZero = .error .mapNeedsCompressed ∧
    MapError.mapNeedsCompressed ≠ MapError.invalidMap := by
  decide

/-- Claim C10 (corrected): compress_header checks valid() before its engine
switch (compression.cpp lines 13-15), so a Dark Circlet header with a
nonzero size field but bad literals fails compression with
InvalidMapException, refuting the claimed biconditional for every header.
Amended claim: for the Dark Circlet dialect both transcoding directions keep
the engine enumeration unchanged; decompression fails with the
needs-compressed-form failure exactly when the declared decompressed-size
field is zero; and for headers passing the validity check, compression fails
with the needs-decompressed-form failure exactly when that field is nonzero
(an invalid header fails with InvalidMapException instead). -/
theorem dark_circlet_size_field (h dv : CacheFileHeader) (sz : Nat)
    (he : h.engine = CACHE_FILE_DARK_CIRCLET) :
    (h.valid = true →
      (compress_header h sz = .error .mapNeedsDecompressed ↔ 0 < h.decompressed_file_size)) ∧
    (decompress_header h dv = .error .mapNeedsCompressed ↔ h.decompressed_file_size = 0) ∧
    (∀ h2, compress_header h sz = .ok h2 → h2.engine = CACHE_FILE_DARK_CIRCLET) ∧
    (∀ sh h2, decompress_header h dv = .ok (sh, h2) → h2.engine = CACHE_FILE_DARK_CIRCLET) := by
  unfold compress_header decompress_header finishCompress finishDecompress
  split_ifs <;>
    simp_all [CACHE_FILE_DEMO, CACHE_FILE_RETAIL, CACHE_FILE_CUSTOM_EDITION,
      CACHE_FILE_DARK_CIRCLET, CACHE_FILE_CUSTOM_EDITION_COMPRESSED,
      CACHE_FILE_RETAIL_COMPRESSED, CACHE_FILE_DEMO_COMPRESSED]

/-- Witness for C10 (amended): the zero-size valid Dark Circlet header
compresses without the needs-decompressed failure, and the nonzero-size one
decompresses without the needs-compressed failure. -/
theorem dark_circlet_size_field_witness :
    (compress_header hdrDark0 100 = .error .mapNeedsDecompressed ↔
      0 < hdrDark0.decompressed_file_size) ∧
    (decompress_header hdrDarkBig dvZero = .error .mapNeedsCompressed ↔
      hdrDarkBig.decompressed_file_size = 0) :=
  ⟨(dark_circlet_size_field hdrDark0 dvZero 100 (by decide)).1 (by decide),
   (dark_circlet_size_field hdrDarkBig dvZero 0 (by decide)).2.1⟩

/-- Counterexample for C10 as stated: this Dark Circlet header has a nonzero
declared decompressed-size field, yet compression fails with
InvalidMapException (the validity check runs before the engine switch), not
with the claimed needs-decompressed-form failure. -/
theorem dark_circlet_size_field_cex :
    hdrDarkBadLiterals.engine = CACHE_FILE_DARK_CIRCLET ∧
    0 < hdrDarkBadLiterals.decompressed_file_size ∧
    compress_header hdrDarkBadLiterals 0 = .error .invalidMap ∧
    MapError.invalidMap ≠ MapError.mapNeedsDecompressed := by
  decide

/-- Claim C2 (corrected): the code signals a decompressed-size mismatch with
the very same DecompressionFailureException it uses for codec-level errors
(compression.cpp line 143 merges both conditions into one throw), so there is
no distinct SizeMismatchError.  Amended claim: for every compressed input
whose header passes validation and transcoding and whose body decompresses
without a codec error, whole-buffer decompression fails — with
DecompressionFailureException, the same failure as codec-level errors —
exactly when the decompressed body length plus the header size differs from
the header's declared decompressed size. -/
theorem decompress_size_mismatch (codec : Codec) (h dv : CacheFileHeader)
    (body d : List Nat) (hv : h.valid = true) (r : HeaderShape × CacheFileHeader)
    (hhd : decompress_header h dv = .ok r)
    (hcd : codec.decompress body = some d) :
    (decompress_map_data codec h dv body = .error .decompressionFailure ↔
      d.length + HEADER_SIZE ≠ h.decompressed_file_size) ∧
    (∀ body2, codec.decompress body2 = none →
      decompress_map_data codec h dv body2 = .error .decompressionFailure) := by
  constructor
  · simp only [decompress_map_data, hv, hhd, hcd]
    split_ifs with hlen <;> simp_all
  · intro body2 hb2
    simp [decompress_map_data, hv, hhd, hb2]

/-- Witness for C2 (amended): with the identity codec, the compressed custom
edition header declaring 2053 bytes over a 2-byte body fails exactly because
2 + 2048 differs from 2053. -/
theorem decompress_size_mismatch_witness :
    decompress_map_data idCodec hdrCEC dvZero [1, 2] = .error .decompressionFailure ↔
      ([1, 2] : List Nat).length + HEADER_SIZE ≠ hdrCEC.decompressed_file_size :=
  (decompress_size_mismatch idCodec hdrCEC dvZero [1, 2] [1, 2] (by decide)
    (HeaderShape.standard, ⟨CACHE_FILE_HEAD, CACHE_FILE_CUSTOM_EDITION, 0, [], CACHE_FILE_FOOT⟩)
    (by decide) rfl).1

/-- Counterexample for C2 as stated: the claim requires a SizeMismatchError
distinct from the codec-level DecompressionFailureError, but the size
mismatch below and a pure codec failure produce the identical error value
MapError.decompressionFailure. -/
theorem decompress_size_mismatch_cex :
    decompress_map_data idCodec hdrCEC dvZero [1, 2] = .error .decompressionFailure ∧
    decompress_map_data errCodec hdrCEC dvZero [1, 2] = .error .decompressionFailure ∧
    idCodec.decompress [1, 2] = some [1, 2] ∧
    ([1, 2] : List Nat).length + HEADER_SIZE ≠ hdrCEC.decompressed_file_size := by
  decide

/-- Successful whole-buffer compression decomposes into a successful header
transcode and a successful codec call. -/
theorem compress_map_data_ok_elim (codec : Codec) (level : Nat) (h : CacheFileHeader)
    (body : List Nat) (out : CacheFileHeader × List Nat)
    (hc : compress_map_data codec level h body = .ok out) :
    ∃ h2 c, compress_header h (HEADER_SIZE + body.length) = .ok h2 ∧
      codec.compress level body = some c ∧ out = (h2, c) := by
  unfold compress_map_data at hc
  split at hc
  · exact absurd hc (by simp)
  · split at hc
    · exact absurd hc (by simp)
    · injection hc with hh
      refine ⟨_, _, ?_, ?_, hh.symm⟩ <;> assumption

/-- A successful header compression implies the declared size fits in 32
bits. -/
theorem compress_header_ok_le (h : CacheFileHeader) (sz : Nat) (h2 : CacheFileHeader)
    (hok : compress_header h sz = .ok h2) : sz ≤ UINT32_MAX := by
  unfold compress_header finishCompress at hok
  split_ifs at hok <;> simp_all

/-- Evaluation of compress_header on a zero-size valid retail header. -/
theorem compress_header_eval_retail (rst : List Nat) (sz : Nat)
    (hmax : ¬ (sz > UINT32_MAX)) :
    compress_header
      (⟨CACHE_FILE_HEAD, CACHE_FILE_RETAIL, 0, rst, CACHE_FILE_FOOT⟩ : CacheFileHeader) sz =
      .ok ⟨CACHE_FILE_HEAD, CACHE_FILE_RETAIL_COMPRESSED, sz, rst, CACHE_FILE_FOOT⟩ := by
  simp [compress_header, finishCompress, CacheFileHeader.valid, knownEngines, hmax,
    CACHE_FILE_XBOX, CACHE_FILE_DEMO, CACHE_FILE_RETAIL, CACHE_FILE_CUSTOM_EDITION,
    CACHE_FILE_DARK_CIRCLET, CACHE_FILE_CUSTOM_EDITION_COMPRESSED,
    CACHE_FILE_RETAIL_COMPRESSED, CACHE_FILE_DEMO_COMPRESSED, CACHE_FILE_HEAD,
    CACHE_FILE_FOOT]

/-- Evaluation of compress_header on a zero-size valid custom edition
header. -/
theorem compress_header_eval_ce (rst : List Nat) (sz : Nat)
    (hmax : ¬ (sz > UINT32_MAX)) :
    compress_header
      (⟨CACHE_FILE_HEAD, CACHE_FILE_CUSTOM_EDITION, 0, rst, CACHE_FILE_FOOT⟩ :
        CacheFileHeader) sz =
      .ok ⟨CACHE_FILE_HEAD, CACHE_FILE_CUSTOM_EDITION_COMPRESSED, sz, rst,
        CACHE_FILE_FOOT⟩ := by
  simp [compress_header, finishCompress, CacheFileHeader.valid, knownEngines, hmax,
    CACHE_FILE_XBOX, CACHE_FILE_DEMO, CACHE_FILE_RETAIL, CACHE_FILE_CUSTOM_EDITION,
    CACHE_FILE_DARK_CIRCLET, CACHE_FILE_CUSTOM_EDITION_COMPRESSED,
    CACHE_FILE_RETAIL_COMPRESSED, CACHE_FILE_DEMO_COMPRESSED, CACHE_FILE_HEAD,
    CACHE_FILE_FOOT]

/-- Evaluation of compress_header on a zero-size valid Dark Circlet header:
the engine code is kept. -/
theorem compress_header_eval_dark (rst : List Nat) (sz : Nat)
    (hmax : ¬ (sz > UINT32_MAX)) :
    compress_header
      (⟨CACHE_FILE_HEAD, CACHE_FILE_DARK_CIRCLET, 0, rst, CACHE_FILE_FOOT⟩ :
        CacheFileHeader) sz =
      .ok ⟨CACHE_FILE_HEAD, CACHE_FILE_DARK_CIRCLET, sz, rst, CACHE_FILE_FOOT⟩ := by
  simp [compress_header, finishCompress, CacheFileHeader.valid, knownEngines, hmax,
    CACHE_FILE_XBOX, CACHE_FILE_DEMO, CACHE_FILE_RETAIL, CACHE_FILE_CUSTOM_EDITION,
    CACHE_FILE_DARK_CIRCLET, CACHE_FILE_CUSTOM_EDITION_COMPRESSED,
    CACHE_FILE_RETAIL_COMPRESSED, CACHE_FILE_DEMO_COMPRESSED, CACHE_FILE_HEAD,
    CACHE_FILE_FOOT]

/-- Evaluation of compress_header on a zero-size valid demo header. -/
theorem compress_header_eval_demo (rst : List Nat) (sz : Nat)
    (hmax : ¬ (sz > UINT32_MAX)) :
    compress_header
      (⟨CACHE_FILE_HEAD, CACHE_FILE_DEMO, 0, rst, CACHE_FILE_FOOT⟩ : CacheFileHeader) sz =
      .ok ⟨CACHE_FILE_HEAD, CACHE_FILE_DEMO_COMPRESSED, sz, rst, CACHE_FILE_FOOT⟩ := by
  simp [compress_header, finishCompress, CacheFileHeader.valid, knownEngines, hmax,
    CACHE_FILE_XBOX, CACHE_FILE_DEMO, CACHE_FILE_RETAIL, CACHE_FILE_CUSTOM_EDITION,
    CACHE_FILE_DARK_CIRCLET, CACHE_FILE_CUSTOM_EDITION_COMPRESSED,
    CACHE_FILE_RETAIL_COMPRESSED, CACHE_FILE_DEMO_COMPRESSED, CACHE_FILE_HEAD,
    CACHE_FILE_FOOT]

/-- Evaluation of whole-buffer decompression on a compressed retail buffer. -/
theorem decompress_eval_retail (codec : Codec) (rst body d : List Nat)
    (dv : CacheFileHeader) (S : Nat) (hdec : codec.decompress body = some d)
    (hS1 : ¬ (S < HEADER_SIZE)) (hS2 : ¬ (d.length + HEADER_SIZE ≠ S)) :
    decompress_map_data codec
      (⟨CACHE_FILE_HEAD, CACHE_FILE_RETAIL_COMPRESSED, S, rst, CACHE_FILE_FOOT⟩ :
        CacheFileHeader) dv body =
      .ok (HeaderShape.standard,
        (⟨CACHE_FILE_HEAD, CACHE_FILE_RETAIL, 0, rst, CACHE_FILE_FOOT⟩ : CacheFileHeader),
        d) := by
  simp [decompress_map_data, decompress_header, finishDecompress, CacheFileHeader.valid,
    knownEngines, hdec, hS1, hS2, CACHE_FILE_XBOX, CACHE_FILE_DEMO, CACHE_FILE_RETAIL,
    CACHE_FILE_CUSTOM_EDITION, CACHE_FILE_DARK_CIRCLET,
    CACHE_FILE_CUSTOM_EDITION_COMPRESSED, CACHE_FILE_RETAIL_COMPRESSED,
    CACHE_FILE_DEMO_COMPRESSED]

/-- Evaluation of whole-buffer decompression on a compressed custom edition
buffer. -/
theorem decompress_eval_ce (codec : Codec) (rst body d : List Nat)
    (dv : CacheFileHeader) (S : Nat) (hdec : codec.decompress body = some d)
    (hS1 : ¬ (S < HEADER_SIZE)) (hS2 : ¬ (d.length + HEADER_SIZE ≠ S)) :
    decompress_map_data codec
      (⟨CACHE_FILE_HEAD, CACHE_FILE_CUSTOM_EDITION_COMPRESSED, S, rst, CACHE_FILE_FOOT⟩ :
        CacheFileHeader) dv body =
      .ok (HeaderShape.standard,
        (⟨CACHE_FILE_HEAD, CACHE_FILE_CUSTOM_EDITION, 0, rst, CACHE_FILE_FOOT⟩ :
          CacheFileHeader), d) := by
  simp [decompress_map_data, decompress_header, finishDecompress, CacheFileHeader.valid,
    knownEngines, hdec, hS1, hS2, CACHE_FILE_XBOX, CACHE_FILE_DEMO, CACHE_FILE_RETAIL,
    CACHE_FILE_CUSTOM_EDITION, CACHE_FILE_DARK_CIRCLET,
    CACHE_FILE_CUSTOM_EDITION_COMPRESSED, CACHE_FILE_RETAIL_COMPRESSED,
    CACHE_FILE_DEMO_COMPRESSED]

/-- Evaluation of whole-buffer decompression on a Dark Circlet buffer with a
nonzero declared size. -/
theorem decompress_eval_dark (codec : Codec) (rst body d : List Nat)
    (dv : CacheFileHeader) (S : Nat) (hdec : codec.decompress body = some d)
    (hS0 : ¬ (S = 0)) (hS1 : ¬ (S < HEADER_SIZE)) (hS2 : ¬ (d.length + HEADER_SIZE ≠ S)) :
    decompress_map_data codec
      (⟨CACHE_FILE_HEAD, CACHE_FILE_DARK_CIRCLET, S, rst, CACHE_FILE_FOOT⟩ :
        CacheFileHeader) dv body =
      .ok (HeaderShape.standard,
        (⟨CACHE_FILE_HEAD, CACHE_FILE_DARK_CIRCLET, 0, rst, CACHE_FILE_FOOT⟩ :
          CacheFileHeader), d) := by
  simp [decompress_map_data, decompress_header, finishDecompress, CacheFileHeader.valid,
    knownEngines, hdec, hS0, hS1, hS2, CACHE_FILE_XBOX, CACHE_FILE_DEMO, CACHE_FILE_RETAIL,
    CACHE_FILE_CUSTOM_EDITION, CACHE_FILE_DARK_CIRCLET,
    CACHE_FILE_CUSTOM_EDITION_COMPRESSED, CACHE_FILE_RETAIL_COMPRESSED,
    CACHE_FILE_DEMO_COMPRESSED]

/-- Evaluation of whole-buffer decompression on a compressed demo buffer: the
output header is demo-shaped with the demo literals. -/
theorem decompress_eval_demo (codec : Codec) (rst body d : List Nat)
    (dv : CacheFileHeader) (S : Nat) (hdec : codec.decompress body = some d)
    (hS1 : ¬ (S < HEADER_SIZE)) (hS2 : ¬ (d.length + HEADER_SIZE ≠ S)) :
    decompress_map_data codec
      (⟨CACHE_FILE_HEAD, CACHE_FILE_DEMO_COMPRESSED, S, rst, CACHE_FILE_FOOT⟩ :
        CacheFileHeader) dv body =
      .ok (HeaderShape.demo,
        (⟨CACHE_FILE_HEAD_DEMO, CACHE_FILE_DEMO, 0, rst, CACHE_FILE_FOOT_DEMO⟩ :
          CacheFileHeader), d) := by
  simp [decompress_map_data, decompress_header, finishDecompress, CacheFileHeader.valid,
    knownEngines, hdec, hS1, hS2, CACHE_FILE_XBOX, CACHE_FILE_DEMO, CACHE_FILE_RETAIL,
    CACHE_FILE_CUSTOM_EDITION, CACHE_FILE_DARK_CIRCLET,
    CACHE_FILE_CUSTOM_EDITION_COMPRESSED, CACHE_FILE_RETAIL_COMPRESSED,
    CACHE_FILE_DEMO_COMPRESSED, CACHE_FILE_HEAD_DEMO, CACHE_FILE_FOOT_DEMO]

/-- Claim C1 (corrected): the round trip restores the buffer byte for byte
only when the original header's declared decompressed-size field is zero
(decompression zeroes that field) and the engine is not the demo dialect
(decompression rewrites a demo header into the demo shape with the demo
literals).  Amended claim: for every buffer with a valid header of the
retail, custom edition or Dark Circlet dialect whose declared
decompressed-size field is zero, if compression succeeds at some level and
the codec is lossless, then decompressing the compressed result returns
exactly the original buffer; for the demo dialect it returns the original
body under the original header rewritten to the demo shape. -/
theorem compress_roundtrip (codec : Codec) (level : Nat) (h : CacheFileHeader)
    (body : List Nat) (dv : CacheFileHeader) (out : CacheFileHeader × List Nat)
    (hv : h.valid = true)
    (hz : h.decompressed_file_size = 0)
    (hloss : ∀ l b c, codec.compress l b = some c → codec.decompress c = some b)
    (hc : compress_map_data codec level h body = .ok out) :
    ((h.engine = CACHE_FILE_RETAIL ∨ h.engine = CACHE_FILE_CUSTOM_EDITION ∨
      h.engine = CACHE_FILE_DARK_CIRCLET) →
      decompress_map_data codec out.1 dv out.2 = .ok (HeaderShape.standard, h, body)) ∧
    (h.engine = CACHE_FILE_DEMO →
      decompress_map_data codec out.1 dv out.2 =
        .ok (HeaderShape.demo,
          { h with head_literal := CACHE_FILE_HEAD_DEMO,
                   foot_literal := CACHE_FILE_FOOT_DEMO }, body)) := by
  obtain ⟨hl, eng, szf, rst, fl⟩ := h
  simp only [CacheFileHeader.valid, Bool.and_eq_true, beq_iff_eq] at hv
  obtain ⟨⟨rfl, rfl⟩, _⟩ := hv
  dsimp only at hz ⊢
  subst hz
  obtain ⟨h2, c, hch, hcc, rfl⟩ := compress_map_data_ok_elim codec level _ body out hc
  have hle := compress_header_ok_le _ _ _ hch
  have hdec := hloss level body c hcc
  constructor
  · rintro (rfl | rfl | rfl)
    · obtain rfl :=
        Except.ok.inj ((compress_header_eval_retail rst _ (by omega)).symm.trans hch)
      exact decompress_eval_retail codec rst c body dv _ hdec (by omega) (by omega)
    · obtain rfl :=
        Except.ok.inj ((compress_header_eval_ce rst _ (by omega)).symm.trans hch)
      exact decompress_eval_ce codec rst c body dv _ hdec (by omega) (by omega)
    · obtain rfl :=
        Except.ok.inj ((compress_header_eval_dark rst _ (by omega)).symm.trans hch)
      exact decompress_eval_dark codec rst c body dv _ hdec (by simp [HEADER_SIZE])
        (by omega) (by omega)
  · rintro rfl
    obtain rfl :=
      Except.ok.inj ((compress_header_eval_demo rst _ (by omega)).symm.trans hch)
    exact decompress_eval_demo codec rst c body dv _ hdec (by omega) (by omega)


/-- Witness for C1 (amended): the identity codec round-trips a retail buffer
with body [1, 2, 3]. -/
theorem compress_roundtrip_witness :
    decompress_map_data idCodec outRetailW.1 dvZero outRetailW.2 =
      .ok (HeaderShape.standard, hdrRetail0, [1, 2, 3]) :=
  (compress_roundtrip idCodec 3 hdrRetail0 [1, 2, 3] dvZero outRetailW (by decide) rfl
    (fun _ _ _ hh => hh.symm) (by decide)).1 (Or.inl rfl)

/-- Counterexample for C1 as stated: two buffers with valid headers of
supported uncompressed dialects whose compression succeeds but whose round
trip is not the identity — a retail header with a nonzero declared size field
(the field comes back zeroed) and a standard-shaped demo header (the header
comes back in the demo shape with different literals). -/
theorem compress_roundtrip_cex :
    (compress_map_data idCodec 3 hdrRetail5 [] = .ok outRetail5 ∧
     decompress_map_data idCodec outRetail5.1 dvZero outRetail5.2 ≠
       .ok (HeaderShape.standard, hdrRetail5, [])) ∧
    (compress_map_data idCodec 3 hdrDemo0 [] = .ok outDemo0 ∧
     decompress_map_data idCodec outDemo0.1 dvZero outDemo0.2 ≠
       .ok (HeaderShape.standard, hdrDemo0, [])) := by
  decide

/-- Claim C6 (amended): whenever the decompressor requests more input than
the file still holds, the streaming loop fails (with the pipeline's
DecompressionFailureException) rather than returning a short output; the loop
otherwise feeds the decompressor next exactly the q bytes it reported
needing; and a file whose body ends before even the first initSize-byte read
fails the same way. -/
theorem stream_truncated_input {σ : Type} (ds : DStream σ) :
    (∀ (st : σ) chunk remaining written st2 out q,
        ds.step st chunk = some (st2, out, q) → remaining.length < q →
        streamBody ds st chunk remaining written = .error .decompressionFailure) ∧
    (∀ (st : σ) chunk remaining written st2 out q,
        ds.step st chunk = some (st2, out, q) → 0 < q → q ≤ remaining.length →
        (streamBody ds st chunk remaining written =
          streamBody ds st2 (remaining.take q) (remaining.drop q) (written ++ out) ∧
         (remaining.take q).length = q)) ∧
    (∀ (st0 : σ) (h dv : CacheFileHeader) (body : List Nat) hd,
        decompress_header h dv = .ok hd → body.length ≠ 0 → body.length < ds.initSize →
        decompress_map_file ds st0 h dv body = .error .decompressionFailure) := by
  refine ⟨?_, ?_, ?_⟩
  · intro st chunk remaining written st2 out q hstep hlt
    rw [streamBody, hstep]
    have h0 : 0 < q := by omega
    simp only [h0, if_true]
    rw [dif_neg (by omega)]
  · intro st chunk remaining written st2 out q hstep h0 hle
    refine ⟨?_, by simp [List.length_take]; omega⟩
    rw [streamBody, hstep]
    simp only [h0, if_true]
    rw [dif_pos hle]
  · intro st0 h dv body hd hhd hne hlt
    unfold decompress_map_file
    rw [hhd]
    simp only [hne, if_false]
    rw [if_neg (by omega)]

/-- Witness for C6 (amended): with the always-ask-2 decompressor, a read of 2
bytes against 1 remaining byte fails; a request of 2 against 3 remaining
bytes is fed exactly 2; and a 1-byte body under hdrCEC fails outright. -/
theorem stream_truncated_input_witness :
    (streamBody dsNeed 0 [1] [9] [] = .error .decompressionFailure) ∧
    (streamBody dsNeed 0 [1, 2] [7, 8, 9] [] =
       streamBody dsNeed 0 (([7, 8, 9] : List Nat).take 2) (([7, 8, 9] : List Nat).drop 2)
         ([] ++ [1, 2]) ∧
     ((([7, 8, 9] : List Nat).take 2).length = 2)) ∧
    (decompress_map_file dsNeed 0 hdrCEC dvZero [5] = .error .decompressionFailure) :=
  ⟨(stream_truncated_input dsNeed).1 0 [1] [9] [] 0 [1] 2 rfl (by decide),
   (stream_truncated_input dsNeed).2.1 0 [1, 2] [7, 8, 9] [] 0 [1, 2] 2 rfl (by decide)
     (by decide),
   (stream_truncated_input dsNeed).2.2 0 hdrCEC dvZero [5]
     (HeaderShape.standard, hdrCECDecompressed) (by decide) (by decide) (by decide)⟩

/-- Counterexample for C6 as stated: the claim's TruncatedInputError does not
exist as a distinct failure — a truncated input file (1 body byte where the
decompressor's first read wants 2) and a pure codec failure produce the
identical error value MapError.decompressionFailure. -/
theorem stream_truncated_input_cex :
    decompress_map_file dsNeed 0 hdrCEC dvZero [5] = .error .decompressionFailure ∧
    decompress_map_file dsErr 0 hdrCEC dvZero [5, 6] = .error .decompressionFailure := by
  constructor
  · simp [decompress_map_file, decompress_header, finishDecompress, CacheFileHeader.valid,
      knownEngines, dsNeed, hdrCEC, dvZero, HEADER_SIZE, CACHE_FILE_XBOX, CACHE_FILE_DEMO,
      CACHE_FILE_RETAIL, CACHE_FILE_CUSTOM_EDITION, CACHE_FILE_DARK_CIRCLET,
      CACHE_FILE_CUSTOM_EDITION_COMPRESSED, CACHE_FILE_RETAIL_COMPRESSED,
      CACHE_FILE_DEMO_COMPRESSED, CACHE_FILE_HEAD, CACHE_FILE_FOOT]
  · simp [decompress_map_file, decompress_header, finishDecompress, streamBody,
      CacheFileHeader.valid, knownEngines, dsErr, hdrCEC, dvZero, HEADER_SIZE,
      CACHE_FILE_XBOX, CACHE_FILE_DEMO, CACHE_FILE_RETAIL, CACHE_FILE_CUSTOM_EDITION,
      CACHE_FILE_DARK_CIRCLET, CACHE_FILE_CUSTOM_EDITION_COMPRESSED,
      CACHE_FILE_RETAIL_COMPRESSED, CACHE_FILE_DEMO_COMPRESSED, CACHE_FILE_HEAD,
      CACHE_FILE_FOOT]

/-- The crosshair-types aggregation, generalized over the accumulator: bit k
of the folded mask is set iff it was set in the accumulator or some crosshair
declares type k (all types below 32, so the uint32_t truncation is the
identity). -/
theorem crosshairTypesFold_go_testBit (cs : List WeaponHUDInterfaceCrosshair)
    (acc k : Nat) (h32 : ∀ c ∈ cs, c.crosshair_type < 32) :
    ((cs.foldl (fun a c => a ||| ((1 <<< c.crosshair_type) % U32_MOD)) acc).testBit k = true ↔
      acc.testBit k = true ∨ ∃ c ∈ cs, c.crosshair_type = k) := by
  induction cs generalizing acc with
  | nil => simp
  | cons c cs ih =>
    simp only [List.foldl_cons]
    rw [ih _ (fun d hd => h32 d (List.mem_cons_of_mem c hd))]
    have hc32 : c.crosshair_type < 32 := h32 c (List.mem_cons_self c cs)
    have hmod : (1 <<< c.crosshair_type) % U32_MOD = 2 ^ c.crosshair_type := by
      rw [Nat.shiftLeft_eq, one_mul]
      apply Nat.mod_eq_of_lt
      calc 2 ^ c.crosshair_type < 2 ^ 32 := Nat.pow_lt_pow_right (by norm_num) hc32
        _ = U32_MOD := by norm_num [U32_MOD]
    rw [hmod, Nat.testBit_lor]
    by_cases hk : c.crosshair_type = k
    · subst hk
      simp [Nat.testBit_two_pow_self, List.mem_cons]
    · simp only [Nat.testBit_two_pow_of_ne hk, Bool.or_false, List.mem_cons]
      constructor
      · rintro (h | ⟨d, hd, hdk⟩)
        · exact Or.inl h
        · exact Or.inr ⟨d, Or.inr hd, hdk⟩
      · rintro (h | ⟨d, (rfl | hd), hdk⟩)
        · exact Or.inl h
        · exact absurd hdk hk
        · exact Or.inr ⟨d, hd, hdk⟩

/-- Claim C7 (confirmed): after the weapon HUD interface pre-compile hook,
bit k of the aggregated crosshair-types flag field is set iff some element of
the crosshairs list declares crosshair type k (each type is an enum value
below 32); and the field's prior value influences neither the record nor the
diagnostics the hook produces. -/
theorem crosshair_types_aggregation (w : BuildWorkload) (tag_index : Nat)
    (rec : WeaponHUDInterface)
    (h32 : ∀ c ∈ rec.crosshairs, c.crosshair_type < 32) :
    (∀ k, ((WeaponHUDInterface.pre_compile w tag_index rec).1.crosshair_types.testBit k = true ↔
       ∃ c ∈ rec.crosshairs, c.crosshair_type = k)) ∧
    (∀ v, WeaponHUDInterface.pre_compile w tag_index { rec with crosshair_types := v } =
       WeaponHUDInterface.pre_compile w tag_index rec) := by
  constructor
  · intro k
    have hfst : (WeaponHUDInterface.pre_compile w tag_index rec).1 =
        { rec with crosshair_types := crosshairTypesFold rec.crosshairs } := by
      simp only [WeaponHUDInterface.pre_compile]
      split_ifs <;> rfl
    rw [hfst]
    show (crosshairTypesFold rec.crosshairs).testBit k = true ↔
      ∃ c ∈ rec.crosshairs, c.crosshair_type = k
    rw [crosshairTypesFold, crosshairTypesFold_go_testBit rec.crosshairs 0 k h32]
    simp [Nat.zero_testBit]
  · intro v
    rfl

/-- Witness for C7: with two crosshairs of types 1 and 3, bit 3 of the
aggregated field is set iff some crosshair has type 3 — which one does. -/
theorem crosshair_types_aggregation_witness :
    ((WeaponHUDInterface.pre_compile wHud 0 recHud).1.crosshair_types.testBit 3 = true ↔
      ∃ c ∈ recHud.crosshairs, c.crosshair_type = 3) :=
  (crosshair_types_aggregation wHud 0 recHud (by decide)).1 3


/-- Completeness of the crosshair overlay loop: the overlay at position j
with a non-null, out-of-bounds sequence index contributes its out-of-bounds
error diagnostic. -/
theorem crosshairOverlayDiags_oob_mem (t cr : Nat) (seqs : List BitmapGroupSequence) :
    ∀ (os : List WeaponHUDInterfaceCrosshairOverlay) (start j : Nat)
      (o : WeaponHUDInterfaceCrosshairOverlay),
      os.get? j = some o → o.sequence_index ≠ NULL_INDEX →
      seqs.length ≤ o.sequence_index →
      (⟨.error, t, .crosshairSequenceOutOfBounds o.sequence_index (start + j) cr
          seqs.length⟩ : Diag) ∈ crosshairOverlayDiags t cr seqs start os := by
  intro os
  induction os with
  | nil => intro start j o hget; simp at hget
  | cons p os ih =>
    intro start j o hget hnn hge
    match j with
    | 0 =>
      simp only [List.get?_cons_zero, Option.some.injEq] at hget
      subst hget
      simp only [crosshairOverlayDiags, List.mem_append, Nat.add_zero]
      left
      rw [if_pos hnn, if_pos hge]
      simp
    | j2 + 1 =>
      simp only [List.get?_cons_succ] at hget
      have harith : start + (j2 + 1) = (start + 1) + j2 := by omega
      rw [harith]
      simp only [crosshairOverlayDiags, List.mem_append]
      exact Or.inr (ih (start + 1) j2 o hget hnn hge)

/-- Soundness of the crosshair overlay loop: an out-of-bounds error
diagnostic in its output comes from the overlay at the position it names,
whose sequence index was indeed non-null and out of bounds. -/
theorem crosshairOverlayDiags_oob_elim (t cr : Nat) (seqs : List BitmapGroupSequence) :
    ∀ (os : List WeaponHUDInterfaceCrosshairOverlay) (start s k b : Nat),
      (⟨.error, t, .crosshairSequenceOutOfBounds s k cr b⟩ : Diag) ∈
        crosshairOverlayDiags t cr seqs start os →
      ∃ j o, os.get? j = some o ∧ k = start + j ∧ o.sequence_index ≠ NULL_INDEX ∧
        seqs.length ≤ o.sequence_index ∧ s = o.sequence_index ∧ b = seqs.length := by
  intro os
  induction os with
  | nil => intro start s k b hin; simp [crosshairOverlayDiags] at hin
  | cons p os ih =>
    intro start s k b hin
    simp only [crosshairOverlayDiags, List.mem_append] at hin
    rcases hin with hin | hin
    · split_ifs at hin with h1 h2 h3 h4 h5
      · simp [Diag.mk.injEq, HudDiag.crosshairSequenceOutOfBounds.injEq] at hin
        obtain ⟨hs, hk, hb⟩ := hin
        exact ⟨0, p, rfl, by omega, h1, by omega, hs, hb⟩
      all_goals simp at hin
    · obtain ⟨j2, o, hget, hk, hnn, hge, hs, hb⟩ := ih (start + 1) s k b hin
      exact ⟨j2 + 1, o, hget, by omega, hnn, hge, hs, hb⟩

/-- Claim C8 (confirmed): for every crosshair overlay and every meter whose
sequence index is not the null sentinel, the post-compile hook reports an
error-severity out-of-bounds diagnostic exactly when that index is at least
the referenced bitmap's sequence count; an in-bounds index produces no
out-of-bounds diagnostic for that overlay or meter (stated over a workload
with an empty diagnostics list, so the hook's own output is exposed). -/
theorem post_compile_sequence_bounds (w : BuildWorkload) (tidx soff : Nat)
    (hw : w.errors = []) :
    (∀ (c : WeaponHUDInterfaceCrosshair) (i : Nat) (o : WeaponHUDInterfaceCrosshairOverlay),
       c.crosshair_overlays.get? i = some o → o.sequence_index ≠ NULL_INDEX →
       (((get_sequence_data w c.crosshair_bitmap).length ≤ o.sequence_index →
          (⟨.error, tidx, .crosshairSequenceOutOfBounds o.sequence_index i
             (soff / CROSSHAIR_STRUCT_SIZE)
             (get_sequence_data w c.crosshair_bitmap).length⟩ : Diag) ∈
            (WeaponHUDInterfaceCrosshair.post_compile w tidx soff c).2.errors) ∧
        (o.sequence_index < (get_sequence_data w c.crosshair_bitmap).length →
          ∀ s b, (⟨.error, tidx, .crosshairSequenceOutOfBounds s i
             (soff / CROSSHAIR_STRUCT_SIZE) b⟩ : Diag) ∉
            (WeaponHUDInterfaceCrosshair.post_compile w tidx soff c).2.errors))) ∧
    (∀ m : WeaponHUDInterfaceMeter, m.sequence_index ≠ NULL_INDEX →
       (((get_sequence_data w m.meter_bitmap).length ≤ m.sequence_index →
          (⟨.error, tidx, .meterSequenceOutOfBounds m.sequence_index
             (soff / CROSSHAIR_STRUCT_SIZE)
             (get_sequence_data w m.meter_bitmap).length⟩ : Diag) ∈
            (WeaponHUDInterfaceMeter.post_compile w tidx soff m).2.errors) ∧
        (m.sequence_index < (get_sequence_data w m.meter_bitmap).length →
          ∀ s b, (⟨.error, tidx, .meterSequenceOutOfBounds s
             (soff / CROSSHAIR_STRUCT_SIZE) b⟩ : Diag) ∉
            (WeaponHUDInterfaceMeter.post_compile w tidx soff m).2.errors))) := by
  constructor
  · intro c i o hget hnn
    simp only [WeaponHUDInterfaceCrosshair.post_compile, hw, List.nil_append]
    constructor
    · intro hge
      have := crosshairOverlayDiags_oob_mem tidx (soff / CROSSHAIR_STRUCT_SIZE)
        (get_sequence_data w c.crosshair_bitmap) c.crosshair_overlays 0 i o hget hnn hge
      simpa using this
    · intro hlt s b hin
      obtain ⟨j2, o2, hget2, hk, -, hge2, -, -⟩ :=
        crosshairOverlayDiags_oob_elim tidx (soff / CROSSHAIR_STRUCT_SIZE)
          (get_sequence_data w c.crosshair_bitmap) c.crosshair_overlays 0 _ _ _ hin
      have : j2 = i := by omega
      subst this
      rw [hget] at hget2
      injection hget2 with hoo
      subst hoo
      omega
  · intro m hnn
    unfold WeaponHUDInterfaceMeter.post_compile
    rw [if_pos hnn]
    simp only [hw, List.nil_append]
    constructor
    · intro hge
      rw [if_pos (by omega : m.sequence_index ≥ (get_sequence_data w m.meter_bitmap).length)]
      simp
    · intro hlt s b
      rw [if_neg (by omega : ¬ m.sequence_index ≥ (get_sequence_data w m.meter_bitmap).length)]
      split_ifs <;> simp

/-- Witness for C8: a crosshair overlay with sequence index 3 against a null
bitmap (0 sequences) and a meter with sequence index 2 both draw their
out-of-bounds error diagnostics. -/
theorem post_compile_sequence_bounds_witness :
    ((⟨.error, 0, .crosshairSequenceOutOfBounds 3 0 0 0⟩ : Diag) ∈
       (WeaponHUDInterfaceCrosshair.post_compile wHud 0 0 cHud).2.errors) ∧
    ((⟨.error, 0, .meterSequenceOutOfBounds 2 0 0⟩ : Diag) ∈
       (WeaponHUDInterfaceMeter.post_compile wHud 0 0 mHud).2.errors) :=
  ⟨((post_compile_sequence_bounds wHud 0 0 rfl).1 cHud 0 ⟨3, false, false, false⟩ rfl (by decide)).1 (by decide),
   ((post_compile_sequence_bounds wHud 0 0 rfl).2 mHud (by decide)).1 (by decide)⟩

/-- Claim C9 (confirmed): every HUD interface post-compile hook returns the
record it was invoked on unchanged and touches nothing in the workload except
appending diagnostics to its error list (the engine target and every other
record's data are intact in the record-update form of the result). -/
theorem hud_post_compile_frame (w : BuildWorkload) (tidx soff : Nat) :
    (∀ c : WeaponHUDInterfaceCrosshair,
       (WeaponHUDInterfaceCrosshair.post_compile w tidx soff c).1 = c ∧
       ∃ d, (WeaponHUDInterfaceCrosshair.post_compile w tidx soff c).2 =
         { w with errors := w.errors ++ d }) ∧
    (∀ m : WeaponHUDInterfaceMeter,
       (WeaponHUDInterfaceMeter.post_compile w tidx soff m).1 = m ∧
       ∃ d, (WeaponHUDInterfaceMeter.post_compile w tidx soff m).2 =
         { w with errors := w.errors ++ d }) ∧
    (∀ e : WeaponHUDInterfaceStaticElement,
       (WeaponHUDInterfaceStaticElement.post_compile w tidx soff e).1 = e ∧
       ∃ d, (WeaponHUDInterfaceStaticElement.post_compile w tidx soff e).2 =
         { w with errors := w.errors ++ d }) ∧
    (∀ e : WeaponHUDInterfaceOverlayElement,
       (WeaponHUDInterfaceOverlayElement.post_compile w tidx soff e).1 = e ∧
       ∃ d, (WeaponHUDInterfaceOverlayElement.post_compile w tidx soff e).2 =
         { w with errors := w.errors ++ d }) := by
  refine ⟨fun c => ⟨rfl, ?_⟩, fun m => ⟨?_, ?_⟩, fun e => ⟨?_, ?_⟩, fun e => ⟨rfl, ?_⟩⟩
  · exact ⟨_, rfl⟩
  · unfold WeaponHUDInterfaceMeter.post_compile
    split_ifs <;> rfl
  · unfold WeaponHUDInterfaceMeter.post_compile
    split_ifs
    · exact ⟨_, rfl⟩
    · exact ⟨[], by simp⟩
  · unfold WeaponHUDInterfaceStaticElement.post_compile
    split_ifs <;> rfl
  · unfold WeaponHUDInterfaceStaticElement.post_compile
    split_ifs
    · exact ⟨_, rfl⟩
    · exact ⟨[], by simp⟩
  · exact ⟨_, rfl⟩

end Invader
